import Mathlib

/-!
A shallow embedding of the execution and interface-binding engine of the
snapflow repository (sources: `basis/core/data_function_interface.py`,
`basis/core/runnable.py`, `dags/core/node.py`), together with theorems
settling the spec claims about it.

Conventions of the embedding:
* Python exceptions become an explicit `PyError` value inside `Except`.
* SQLAlchemy metadata objects become plain structures; `session.merge` and
  other persistence plumbing that does not change the value being returned
  is modelled as the identity.
* Timestamps (`utcnow()`) are `Nat` parameters supplied by the caller; the
  monotonicity of the clock is a hypothesis where a claim needs it.
* Streams (`basis/core/streams.py` is not part of the sources) are modelled
  from the spec's StreamSource contract, see `DataBlockStream` below.
-/

/-- The Python exceptions thrown by the embedded code.
`inputExhaustedException` models `InputExhaustedException(msg)`;
`notImplementedError` models `raise NotImplementedError`;
`assertionError` models a failed `assert`;
`attributeError` models an `AttributeError` raised by attribute access;
`pipeFailure` models an arbitrary exception raised by the pipe callable;
`otherError` models any other exception. -/
inductive PyError where
  | inputExhaustedException (msg : String)
  | notImplementedError
  | assertionError (msg : String)
  | attributeError (msg : String)
  | pipeFailure (msg : String)
  | otherError (msg : String)
deriving DecidableEq, Repr

/-- `DataBlockMetadata` (from `basis/core/data_block.py`, external to the core
sources): the metadata row of one immutable data block.  Only the fields the
interface manager consults are modelled: identity, creation order, whether the
block is a dataset block, and the storages holding a `StoredDataBlockMetadata`
for it. -/
structure DataBlockMetadata where
  id : Nat
  created_at : Nat
  is_dataset : Bool := false
  storage_urls : List String := []
deriving DecidableEq, Repr

/-- The slice of `ExecutionContext` (from `basis/core/runnable.py`) that input
discovery consults: the storage allow-list and the persisted
`DataBlockLog` rows, kept as `(node key, block id)` pairs per direction. -/
structure ExecutionContext where
  storages : List String
  local_memory_storage : String
  target_storage : Option String
  input_logs : List (String × Nat) := []
  output_logs : List (String × Nat) := []
deriving DecidableEq, Repr

/-- `ExecutionContext.all_storages`: `[self.local_memory_storage] + self.storages`. -/
def ExecutionContext.all_storages (ctx : ExecutionContext) : List String :=
  ctx.local_memory_storage :: ctx.storages

/-- Modelled from the spec: `basis/core/streams.py` is not among the sources,
so a stream is its list of candidate blocks from the upstream node, ordered
oldest-first by creation.  The filter chain and terminal picks below follow
the spec's StreamSource contract (spec section 4.6). -/
structure DataBlockStream where
  blocks : List DataBlockMetadata
deriving DecidableEq, Repr

/-- Has `block` been logged with `direction=INPUT` for `node_key`? -/
def loggedAsInput (ctx : ExecutionContext) (node_key : String)
    (b : DataBlockMetadata) : Bool :=
  ctx.input_logs.contains (node_key, b.id)

/-- Has `block` been logged with `direction=OUTPUT` for `node_key` (a cycle
block: the node's own prior output)? -/
def loggedAsOutput (ctx : ExecutionContext) (node_key : String)
    (b : DataBlockMetadata) : Bool :=
  ctx.output_logs.contains (node_key, b.id)

/-- Modelled from the spec: `filter_storages(list)` restricts to blocks
materialized on at least one listed storage. -/
def DataBlockStream.filter_storages (s : DataBlockStream)
    (storages : List String) : DataBlockStream :=
  ⟨s.blocks.filter fun b => b.storage_urls.any (storages.contains ·)⟩

/-- Modelled from the spec: `filter_unprocessed(node, allow_cycle)` excludes
blocks logged as INPUT for the node; cycle blocks (the node's own outputs)
are excluded unless `allow_cycle`. -/
def DataBlockStream.filter_unprocessed (s : DataBlockStream)
    (ctx : ExecutionContext) (node_key : String) (allow_cycle : Bool) :
    DataBlockStream :=
  ⟨s.blocks.filter fun b =>
    !loggedAsInput ctx node_key b && (allow_cycle || !loggedAsOutput ctx node_key b)⟩

/-- Modelled from the spec: `filter_dataset()` keeps only dataset blocks. -/
def DataBlockStream.filter_dataset (s : DataBlockStream) : DataBlockStream :=
  ⟨s.blocks.filter (·.is_dataset)⟩

/-- Modelled from the spec: `next(ctx)` — the oldest surviving block. -/
def DataBlockStream.get_next (s : DataBlockStream) : Option DataBlockMetadata :=
  s.blocks.head?

/-- Modelled from the spec: `most_recent(ctx)` — the newest surviving block. -/
def DataBlockStream.get_most_recent (s : DataBlockStream) :
    Option DataBlockMetadata :=
  s.blocks.getLast?

/-- Modelled from the spec: `is_unprocessed(ctx, block, node)` — the block is
not yet recorded as INPUT for the node (spec glossary: "Unprocessed"). -/
def DataBlockStream.is_unprocessed (ctx : ExecutionContext)
    (b : DataBlockMetadata) (node_key : String) : Bool :=
  !loggedAsInput ctx node_key b

/-- `VALID_DATA_INTERFACE_TYPES` from `basis/core/data_function_interface.py`. -/
def VALID_DATA_INTERFACE_TYPES : List String :=
  ["DataBlock", "DataSet", "DataFrame", "RecordsList", "RecordsListGenerator",
   "DataFrameGenerator", "DatabaseTableRef"]

/-- `DataFunctionAnnotation` (dataclass in
`basis/core/data_function_interface.py`): the parsed description of one
parameter or return of a pipe. -/
structure DataFunctionAnnotation where
  data_format_class : String
  otype_like : String := "Any"
  name : Option String := none
  is_variadic : Bool := false
  is_generic : Bool := false
  is_optional : Bool := false
  is_self_ref : Bool := false
deriving DecidableEq, Repr

/-- `DataFunctionAnnotation.is_dataset` property. -/
def DataFunctionAnnotation.is_dataset (a : DataFunctionAnnotation) : Bool :=
  a.data_format_class == "DataSet"

/-- `DataFunctionInterface` (dataclass): the parsed signature of one pipe. -/
structure DataFunctionInterface where
  inputs : List DataFunctionAnnotation
  output : Option DataFunctionAnnotation
  requires_data_function_context : Bool := true
deriving DecidableEq, Repr

/-- `DataFunctionInterface.get_non_recursive_inputs`: the non-self-ref slots. -/
def DataFunctionInterface.get_non_recursive_inputs
    (dfi : DataFunctionInterface) : List DataFunctionAnnotation :=
  dfi.inputs.filter fun i => !i.is_self_ref

/-- `DataFunctionInterface.validate_inputs`: walk the inputs with a
`data_block_seen` flag, rejecting a second non-optional `DataBlock` slot. -/
def validateInputsGo (data_block_seen : Bool) :
    List DataFunctionAnnotation → Except PyError Unit
  | [] => .ok ()
  | slot :: rest =>
    if slot.data_format_class == "DataBlock" && !slot.is_optional then
      if data_block_seen then
        .error (.otherError
          "Only one uncorrelated DataBlock input allowed to a DataFunction.Correlate the inputs or use a DataSet")
      else validateInputsGo true rest
    else validateInputsGo data_block_seen rest

/-- `DataFunctionInterface.validate_inputs` (source lines 277-290). -/
def DataFunctionInterface.validate_inputs (dfi : DataFunctionInterface) :
    Except PyError Unit :=
  validateInputsGo false dfi.inputs

/-- `RawNodeInputs`: the raw declared inputs of a node, either a single
upstream value or a name-keyed map.  Upstream nodes (`NodeLike`) are
identified by key. -/
inductive RawNodeInputs where
  | single (v : String)
  | inputMap (m : List (String × String))
deriving DecidableEq, Repr

/-- Python set equality of two lists viewed as sets. -/
def listSetEq [DecidableEq α] (xs ys : List α) : Bool :=
  xs.all (ys.contains ·) && ys.all (xs.contains ·)

/-- The key set of a raw input map minus the special key `"this"`. -/
def keysMinusThis (m : List (String × String)) : List String :=
  (m.map Prod.fst).filter fun k => k ≠ "this"

/-- `DataFunctionInterface.assign_inputs` (source lines 292-301): a non-map
value is assigned to the single non-self-ref slot (asserting there is exactly
one); a map must have key set (minus `"this"`) equal to the set of
non-self-ref slot names.  Keys are `Option String` because an annotation's
`name` may be `None` in Python. -/
def DataFunctionInterface.assign_inputs (dfi : DataFunctionInterface) :
    RawNodeInputs → Except PyError (List (Option String × String))
  | .single v =>
    match dfi.get_non_recursive_inputs with
    | [a] => .ok [(a.name, v)]
    | _ => .error (.assertionError
        "Wrong number of inputs. (Variadic inputs not supported yet)")
  | .inputMap m =>
    if listSetEq ((keysMinusThis m).map some)
        (dfi.get_non_recursive_inputs.map (·.name)) then
      .ok (m.map fun p => (some p.1, p.2))
    else .error (.assertionError "invalid input assignment")

/-- `NodeInput` (dataclass): one named slot of a bound interface.  The
`input_node` a slot is connected to is modelled by the stream of that node's
output blocks (`ensure_data_stream`). -/
structure NodeInput where
  name : String
  original_annotation : DataFunctionAnnotation
  input_node : Option DataBlockStream := none
  bound_data_block : Option DataBlockMetadata := none
deriving DecidableEq, Repr

/-- `BoundFunctionInterface` (dataclass). -/
structure BoundFunctionInterface where
  inputs : List NodeInput
  output : Option DataFunctionAnnotation
  requires_data_function_context : Bool := true
deriving DecidableEq, Repr

/-- `BoundFunctionInterface.as_kwargs`: the bound blocks of the slots that
have one, keyed by slot name. -/
def BoundFunctionInterface.as_kwargs (i : BoundFunctionInterface) :
    List (String × DataBlockMetadata) :=
  i.inputs.filterMap fun inp => inp.bound_data_block.map (inp.name, ·)

/-- A `NodeInput` after `connect`: the slot's `input_node` resolved, with the
stream `ensure_data_stream(input.input_node)` derives from it. -/
structure ConnectedInput where
  name : String
  ann : DataFunctionAnnotation
  stream : DataBlockStream
deriving DecidableEq, Repr

/-- `NodeInterfaceManager.get_input_data_block` (source lines 392-420):
filter by storages, then dispatch on the slot's format class — `DataBlock`
slots take the oldest unprocessed block, `DataSet` slots the most recent
dataset block, anything else raises `NotImplementedError`. -/
def NodeInterfaceManager.get_input_data_block (ctx : ExecutionContext)
    (node_key : String) (stream : DataBlockStream) (input : ConnectedInput)
    (storages : List String) : Except PyError (Option DataBlockMetadata) :=
  let stream := if storages.isEmpty then stream else stream.filter_storages storages
  if input.ann.data_format_class == "DataBlock" then
    .ok ((stream.filter_unprocessed ctx node_key input.ann.is_self_ref).get_next)
  else if input.ann.data_format_class == "DataSet" then
    .ok (stream.filter_dataset.get_most_recent)
  else .error .notImplementedError

/-- The message of the `InputExhaustedException` raised when a required slot
is empty (source line 372-374; the interpolated `={stream}` repr is elided). -/
def requiredEmptyMsg (input_name node_name : String) : String :=
  "    Required input '" ++ input_name ++ "' to DataFunction '" ++ node_name
    ++ "' is empty"

/-- The message of the `InputExhaustedException` raised by the exhaustion rule
(source line 388). -/
def allExhaustedMsg : String := "All inputs exhausted"

/-- The loop body of `NodeInterfaceManager.get_input_data_blocks` (source
lines 343-390), with the accumulated `input_data_blocks` dict (as an ordered
association list) and the `any_unprocessed` flag made explicit.  On the empty
list the final exhaustion check runs. -/
def getInputDataBlocksGo (ctx : ExecutionContext) (node_key node_name : String) :
    List ConnectedInput → List (String × DataBlockMetadata) → Bool →
    Except PyError (List (String × DataBlockMetadata))
  | [], input_data_blocks, any_unprocessed =>
    if !input_data_blocks.isEmpty && !any_unprocessed then
      .error (.inputExhaustedException allExhaustedMsg)
    else .ok input_data_blocks
  | input :: rest, input_data_blocks, any_unprocessed =>
    match NodeInterfaceManager.get_input_data_block ctx node_key input.stream
        input ctx.all_storages with
    | .error e => .error e
    | .ok none =>
      if !input.ann.is_optional then
        .error (.inputExhaustedException (requiredEmptyMsg input.name node_name))
      else if input.ann.data_format_class == "DataBlock" then
        getInputDataBlocksGo ctx node_key node_name rest input_data_blocks true
      else if input.ann.data_format_class == "DataSet" then
        getInputDataBlocksGo ctx node_key node_name rest input_data_blocks
          any_unprocessed
      else .error .notImplementedError
    | .ok (some block) =>
      let input_data_blocks := input_data_blocks ++ [(input.name, block)]
      if input.ann.data_format_class == "DataBlock" then
        getInputDataBlocksGo ctx node_key node_name rest input_data_blocks true
      else if input.ann.data_format_class == "DataSet" then
        getInputDataBlocksGo ctx node_key node_name rest input_data_blocks
          (any_unprocessed || DataBlockStream.is_unprocessed ctx block node_key)
      else .error .notImplementedError

/-- `NodeInterfaceManager.get_input_data_blocks`: run the loop over the
connected inputs starting from an empty dict and `any_unprocessed = False`. -/
def NodeInterfaceManager.get_input_data_blocks (ctx : ExecutionContext)
    (node_key node_name : String) (inputs : List ConnectedInput) :
    Except PyError (List (String × DataBlockMetadata)) :=
  getInputDataBlocksGo ctx node_key node_name inputs [] false

/-- The block `get_input_data_block` picks for a slot whose format class is
`DataBlock` or `DataSet` (the pure content of its `.ok` result). -/
def pickBlock (ctx : ExecutionContext) (node_key : String)
    (i : ConnectedInput) : Option DataBlockMetadata :=
  let stream := if ctx.all_storages.isEmpty then i.stream
    else i.stream.filter_storages ctx.all_storages
  if i.ann.data_format_class == "DataBlock" then
    (stream.filter_unprocessed ctx node_key i.ann.is_self_ref).get_next
  else stream.filter_dataset.get_most_recent

/-- A slot's format class is one the interface manager can bind. -/
def goodFmt (i : ConnectedInput) : Bool :=
  i.ann.data_format_class == "DataBlock"
    || i.ann.data_format_class == "DataSet"

/-- The bindings produced by a run of the discovery loop: one entry per slot
whose pick found a block. -/
def boundOf (ctx : ExecutionContext) (node_key : String)
    (inputs : List ConnectedInput) : List (String × DataBlockMetadata) :=
  inputs.filterMap fun i => (pickBlock ctx node_key i).map (i.name, ·)

/-- What the SOURCE contributes to `any_unprocessed` for one slot: every
`DataBlock` slot contributes (the flag is assigned `True` unconditionally on
source line 378), a `DataSet` slot contributes iff its picked block is
unprocessed for the node. -/
def slotUnprocessed (ctx : ExecutionContext) (node_key : String)
    (i : ConnectedInput) : Bool :=
  if i.ann.data_format_class == "DataBlock" then true
  else (pickBlock ctx node_key i).any fun b =>
    DataBlockStream.is_unprocessed ctx b node_key

/-- The source's `any_unprocessed` flag over a whole input list. -/
def anyUnprocessed (ctx : ExecutionContext) (node_key : String)
    (inputs : List ConnectedInput) : Bool :=
  inputs.any (slotUnprocessed ctx node_key)

/-- What the CLAIM (C1) says a slot contributes to "unprocessed" work: a
`DataBlock` slot contributes iff a block was bound to it, a `DataSet` slot
contributes iff its bound block is unprocessed for the node.  This follows
the claim's words, to be compared against `slotUnprocessed` (the source). -/
def claimedSlotUnprocessed (ctx : ExecutionContext) (node_key : String)
    (i : ConnectedInput) : Bool :=
  if i.ann.data_format_class == "DataBlock" then
    (pickBlock ctx node_key i).isSome
  else (pickBlock ctx node_key i).any fun b =>
    DataBlockStream.is_unprocessed ctx b node_key

/-- The claim's "some slot contributed unprocessed work" over an input list. -/
def claimedAnyUnprocessed (ctx : ExecutionContext) (node_key : String)
    (inputs : List ConnectedInput) : Bool :=
  inputs.any (claimedSlotUnprocessed ctx node_key)

/-- One iteration of `ExecutionManager.run`'s `while True` loop as the loop
observes it: the result of building the bound interface (plus the definition
lookup — `get_bound_data_function_interface` and `get_definition`, which may
raise), and the result of `worker.run` on it. -/
structure IterOutcome where
  bind : Except PyError BoundFunctionInterface
  worker : Except PyError (Option DataBlockMetadata)
deriving Repr

/-- How one call of `ExecutionManager.run` ends.  `finished last n` is a
normal return (any `InputExhaustedException` was caught): the caller gets
`last`, the last `worker.run` result, and `n` counts the completed Worker
runs (`n_runs`).  `failed e n` means exception `e` propagated to the caller.
`outOfScript` means the supplied iteration script ended while the loop would
have kept going. -/
inductive RunOutcome where
  | finished (last_output : Option DataBlockMetadata) (n_runs : Nat)
  | failed (e : PyError) (n_runs : Nat)
  | outOfScript
deriving DecidableEq, Repr

/-- The `while True` loop of `ExecutionManager.run` (source lines 252-295):
`last_output` is overwritten by every `worker.run`; `n_runs` is incremented
after it; the loop breaks when `not to_exhaustion or not dfi.inputs`; an
`InputExhaustedException` anywhere in the body is caught and ends the run
normally; any other exception is re-raised. -/
def ExecutionManager.runLoop (to_exhaustion : Bool) :
    List IterOutcome → Option DataBlockMetadata → Nat → RunOutcome
  | [], _, _ => .outOfScript
  | o :: rest, last_output, n_runs =>
    match o.bind with
    | .error (.inputExhaustedException _) => .finished last_output n_runs
    | .error e => .failed e n_runs
    | .ok dfi =>
      match o.worker with
      | .error (.inputExhaustedException _) => .finished last_output n_runs
      | .error e => .failed e n_runs
      | .ok out =>
        if !to_exhaustion || dfi.inputs.isEmpty then .finished out (n_runs + 1)
        else ExecutionManager.runLoop to_exhaustion rest out (n_runs + 1)

/-- `ExecutionManager.run(node, to_exhaustion)`: enter the loop with
`last_output = None` and `n_runs = 0`. -/
def ExecutionManager.run (to_exhaustion : Bool) (script : List IterOutcome) :
    RunOutcome :=
  ExecutionManager.runLoop to_exhaustion script none 0

/-- `DataInterfaceType`: the runtime value a pipe callable returns, as
`Worker.conform_output` discriminates it.  `storedDataBlock` and `dataSet`
carry the `.data_block` of the metadata value; `generator` is a Python
generator whose `first` is what `get_one()` of the wrapping reusable
generator would yield (`none` = empty); `records` is any other concrete
in-memory payload (records list, dataframe). -/
inductive DataInterfaceType where
  | storedDataBlock (data_block : DataBlockMetadata)
  | dataBlock (b : DataBlockMetadata)
  | dataSet (data_block : DataBlockMetadata)
  | generator (first : Option Nat)
  | records (payload : Nat)
deriving DecidableEq, Repr

/-- `Worker.conform_output` (source lines 371-436).  The result pairs the
returned block with the list of blocks freshly created by
`create_data_block_from_records` (each such call also creates the block's
`StoredDataBlockMetadata`); `fresh` stands for the block that call would
create.  In the generator case with a declared non-generator output class the
source builds `TypeError(output)` WITHOUT raising it and then calls
`output.get_one()` on the plain generator, which raises `AttributeError`. -/
def Worker.conform_output (iface_output : Option DataFunctionAnnotation)
    (target_storage : Option String) (fresh : DataBlockMetadata) :
    DataInterfaceType →
    Except PyError (Option DataBlockMetadata × List DataBlockMetadata) :=
  fun output =>
  match iface_output with
  | none => .error (.assertionError "data_function_interface.output is None")
  | some out_ann =>
    match target_storage with
    | none => .error (.assertionError "ctx.target_storage is None")
    | some _ =>
      match output with
      | .storedDataBlock db => .ok (some db, [])
      | .dataBlock b => .ok (some b, [])
      | .dataSet db => .ok (some db, [])
      | .generator first =>
        if out_ann.data_format_class == "DataFrameGenerator"
            || out_ann.data_format_class == "RecordsListGenerator" then
          match first with
          | none => .ok (none, [])
          | some _ => .ok (some fresh, [fresh])
        else .error (.attributeError "generator object has no attribute get_one")
      | .records _ => .ok (some fresh, [fresh])

/-- The observable effects of one `Worker.run` (source lines 321-343):
the returned block, the `DataBlockLog(OUTPUT)` rows, the
`DataBlockLog(INPUT)` rows, and the blocks created for the output. -/
structure WorkerRunResult where
  output_block : Option DataBlockMetadata
  output_logs : List DataBlockMetadata
  input_logs : List DataBlockMetadata
  created : List DataBlockMetadata
deriving DecidableEq, Repr

/-- `Worker.run`: invoke the pipe (`pipe_result` is what
`execute_data_function` returns or raises), conform a non-`None` output
(asserting `target_storage` is set first), log the output block if one was
produced, then log an INPUT row for every slot with a bound block. -/
def Worker.run (iface : BoundFunctionInterface)
    (pipe_result : Except PyError (Option DataInterfaceType))
    (target_storage : Option String) (fresh : DataBlockMetadata) :
    Except PyError WorkerRunResult :=
  match pipe_result with
  | .error e => .error e
  | .ok output =>
    let conform : Except PyError (Option DataBlockMetadata × List DataBlockMetadata) :=
      match output with
      | none => .ok (none, [])
      | some o =>
        match target_storage with
        | none => .error (.assertionError "Must specify target storage for output")
        | some _ => Worker.conform_output iface.output target_storage fresh o
    match conform with
    | .error e => .error e
    | .ok (output_block, created) =>
      .ok { output_block := output_block,
            output_logs := output_block.toList,
            input_logs := iface.inputs.filterMap (·.bound_data_block),
            created := created }

/-- The `error` JSON of a `PipeLog`: `{"error": str(e), "traceback": tback[:5000]}`. -/
structure PipeLogError where
  error : String
  traceback : String
deriving DecidableEq, Repr

/-- `PipeLog` (`dags/core/node.py`), restricted to the fields the run-session
protocol touches. -/
structure PipeLog where
  started_at : Nat
  completed_at : Option Nat := none
  error : Option PipeLogError := none
deriving DecidableEq, Repr

/-- Python string slicing `s[:n]`. -/
def pyStringSlice (s : String) (n : Nat) : String := ⟨s.data.take n⟩

/-- `str(e)` of a modelled Python exception. -/
def PyError.message : PyError → String
  | .inputExhaustedException m => m
  | .notImplementedError => "NotImplementedError"
  | .assertionError m => m
  | .attributeError m => m
  | .pipeFailure m => m
  | .otherError m => m

/-- `PipeLog.set_error` (`dags/core/node.py` lines 290-293): store the message
and the traceback truncated to 5000 characters. -/
def PipeLog.set_error (log : PipeLog) (e : PyError) (tback : String) : PipeLog :=
  { log with error := some { error := e.message, traceback := pyStringSlice tback 5000 } }

/-- `ExecutionContext.start_data_function_run` (source lines 147-163): assert
a runtime is set, create the `PipeLog` with `started_at = utcnow()`, run the
body; on exception call `set_error` and re-raise; in `finally` set
`completed_at = utcnow()`.  `t_start` and `t_end` are the two `utcnow()`
readings, `tback` is `traceback.format_exc()`; the returned pair is the final
`PipeLog` and the body's result (re-raised when it was an exception). -/
def ExecutionContext.start_data_function_run (current_runtime : Option String)
    (t_start t_end : Nat) (tback : String) (body : Except PyError α) :
    Except PyError (PipeLog × Except PyError α) :=
  match current_runtime with
  | none => .error (.assertionError "Runtime not set")
  | some _ =>
    let dfl : PipeLog := { started_at := t_start }
    match body with
    | .ok a => .ok ({ dfl with completed_at := some t_end }, .ok a)
    | .error e =>
      .ok ({ dfl.set_error e tback with completed_at := some t_end }, .error e)

lemma gidb_block_eq_pick (ctx : ExecutionContext) (nk : String)
    (i : ConnectedInput) (h : goodFmt i = true) :
    NodeInterfaceManager.get_input_data_block ctx nk i.stream i ctx.all_storages
      = .ok (pickBlock ctx nk i) := by
  rw [goodFmt, Bool.or_eq_true] at h
  rcases h with hdb | hds
  · simp [NodeInterfaceManager.get_input_data_block, pickBlock, hdb,
      ExecutionContext.all_storages]
  · have h1 : i.ann.data_format_class = "DataSet" := by
      simpa using hds
    simp [NodeInterfaceManager.get_input_data_block, pickBlock, h1,
      ExecutionContext.all_storages]

lemma gidb_block_bad (ctx : ExecutionContext) (nk : String)
    (i : ConnectedInput) (storages : List String) (h : goodFmt i = false) :
    NodeInterfaceManager.get_input_data_block ctx nk i.stream i storages
      = .error .notImplementedError := by
  rw [goodFmt, Bool.or_eq_false_iff] at h
  simp [NodeInterfaceManager.get_input_data_block, h.1, h.2]

lemma gidbGo_append (ctx : ExecutionContext) (nk nn : String)
    (pre : List ConnectedInput) :
    ∀ (l : List ConnectedInput) (acc : List (String × DataBlockMetadata))
      (anyU : Bool),
    (∀ i ∈ pre, goodFmt i = true) →
    (∀ i ∈ pre, i.ann.is_optional = false →
      (pickBlock ctx nk i).isSome = true) →
    getInputDataBlocksGo ctx nk nn (pre ++ l) acc anyU
      = getInputDataBlocksGo ctx nk nn l (acc ++ boundOf ctx nk pre)
          (anyU || anyUnprocessed ctx nk pre) := by
  induction pre with
  | nil =>
    intro l acc anyU _ _
    simp [boundOf, anyUnprocessed]
  | cons i pre ih =>
    intro l acc anyU hgood hreq
    have hgi : goodFmt i = true := hgood i (by simp)
    have hstep := gidb_block_eq_pick ctx nk i hgi
    have hgood2 : ∀ j ∈ pre, goodFmt j = true := fun j hj => hgood j (by simp [hj])
    have hreq2 : ∀ j ∈ pre, j.ann.is_optional = false →
        (pickBlock ctx nk j).isSome = true := fun j hj => hreq j (by simp [hj])
    rw [List.cons_append]
    rw [goodFmt, Bool.or_eq_true] at hgi
    cases hpb : pickBlock ctx nk i with
    | none =>
      have hopt : i.ann.is_optional = true := by
        by_contra hc
        have := hreq i (by simp) (Bool.eq_false_iff.mpr hc)
        rw [hpb] at this
        simp at this
      rcases hgi with hdb | hds
      · simp only [getInputDataBlocksGo, hstep, hpb, hopt, hdb,
          Bool.not_true, Bool.false_eq_true, if_false, if_true]
        rw [ih l acc true hgood2 hreq2]
        have hacc : boundOf ctx nk (i :: pre) = boundOf ctx nk pre := by
          simp [boundOf, List.filterMap_cons, hpb]
        have hflag : (true || anyUnprocessed ctx nk pre)
            = (anyU || anyUnprocessed ctx nk (i :: pre)) := by
          simp [anyUnprocessed, slotUnprocessed, hdb]
        rw [hacc, hflag]
      · have hdb : (i.ann.data_format_class == "DataBlock") = false := by
          have : i.ann.data_format_class = "DataSet" := by simpa using hds
          simp [this]
        simp only [getInputDataBlocksGo, hstep, hpb, hopt, hdb, hds,
          Bool.not_true, Bool.false_eq_true, if_false, if_true]
        rw [ih l acc anyU hgood2 hreq2]
        have hacc : boundOf ctx nk (i :: pre) = boundOf ctx nk pre := by
          simp [boundOf, List.filterMap_cons, hpb]
        have hflag : (anyU || anyUnprocessed ctx nk pre)
            = (anyU || anyUnprocessed ctx nk (i :: pre)) := by
          simp [anyUnprocessed, slotUnprocessed, hdb, hpb]
        rw [hacc, hflag]
    | some b =>
      rcases hgi with hdb | hds
      · simp only [getInputDataBlocksGo, hstep, hpb, hdb, if_true]
        rw [ih l (acc ++ [(i.name, b)]) true hgood2 hreq2]
        have hacc : (acc ++ [(i.name, b)]) ++ boundOf ctx nk pre
            = acc ++ boundOf ctx nk (i :: pre) := by
          simp [boundOf, List.filterMap_cons, hpb]
        have hflag : (true || anyUnprocessed ctx nk pre)
            = (anyU || anyUnprocessed ctx nk (i :: pre)) := by
          simp [anyUnprocessed, slotUnprocessed, hdb]
        rw [hacc, hflag]
      · have hdb : (i.ann.data_format_class == "DataBlock") = false := by
          have : i.ann.data_format_class = "DataSet" := by simpa using hds
          simp [this]
        simp only [getInputDataBlocksGo, hstep, hpb, hdb, hds,
          Bool.false_eq_true, if_false, if_true]
        rw [ih l (acc ++ [(i.name, b)])
          (anyU || DataBlockStream.is_unprocessed ctx b nk) hgood2 hreq2]
        have hacc : (acc ++ [(i.name, b)]) ++ boundOf ctx nk pre
            = acc ++ boundOf ctx nk (i :: pre) := by
          simp [boundOf, List.filterMap_cons, hpb]
        have hflag : ((anyU || DataBlockStream.is_unprocessed ctx b nk)
              || anyUnprocessed ctx nk pre)
            = (anyU || anyUnprocessed ctx nk (i :: pre)) := by
          simp [anyUnprocessed, slotUnprocessed, hdb, hpb, Bool.or_assoc]
        rw [hacc, hflag]

lemma gidb_characterization (ctx : ExecutionContext) (nk nn : String)
    (inputs : List ConnectedInput)
    (hgood : ∀ i ∈ inputs, goodFmt i = true)
    (hreq : ∀ i ∈ inputs, i.ann.is_optional = false →
      (pickBlock ctx nk i).isSome = true) :
    NodeInterfaceManager.get_input_data_blocks ctx nk nn inputs
      = if !(boundOf ctx nk inputs).isEmpty && !anyUnprocessed ctx nk inputs
        then .error (.inputExhaustedException allExhaustedMsg)
        else .ok (boundOf ctx nk inputs) := by
  have h := gidbGo_append ctx nk nn inputs [] [] false hgood hreq
  rw [List.append_nil] at h
  rw [NodeInterfaceManager.get_input_data_blocks, h]
  simp [getInputDataBlocksGo]

lemma requiredEmptyMsg_ne_allExhaustedMsg (nm nn : String) :
    requiredEmptyMsg nm nn ≠ allExhaustedMsg := by
  intro h
  have hlen := congrArg String.length h
  rw [requiredEmptyMsg, allExhaustedMsg, String.length_append,
    String.length_append, String.length_append, String.length_append] at hlen
  rw [show ("    Required input '").length = 20 from rfl,
    show ("' to DataFunction '").length = 19 from rfl,
    show ("' is empty").length = 10 from rfl,
    show ("All inputs exhausted").length = 20 from rfl] at hlen
  omega

/-- The execution context of the C1 scenario: block 1 is already logged as
INPUT for node `node1`. -/
def c1ctx : ExecutionContext :=
  { storages := [], local_memory_storage := "memory://local",
    target_storage := none, input_logs := [("node1", 1)], output_logs := [] }

/-- A dataset block materialized in local memory. -/
def c1block : DataBlockMetadata :=
  { id := 1, created_at := 0, is_dataset := true,
    storage_urls := ["memory://local"] }

/-- An optional `DataBlock` slot whose upstream stream is empty. -/
def c1optSlot : ConnectedInput :=
  { name := "new_blocks",
    ann := { data_format_class := "DataBlock", is_optional := true },
    stream := ⟨[]⟩ }

/-- A `DataSet` slot whose most recent dataset block is `c1block`. -/
def c1dsSlot : ConnectedInput :=
  { name := "ds", ann := { data_format_class := "DataSet" },
    stream := ⟨[c1block]⟩ }

/-- C1, counterexample.  A node with an optional `DataBlock` slot that bound
no block and a `DataSet` slot whose bound block is already processed: one
block was bound, no slot contributes "unprocessed" in the claim's sense
(the `DataBlock` slot bound nothing, the `DataSet` block is processed), yet
`get_input_data_blocks` succeeds instead of raising
`InputExhausted("All inputs exhausted")` — because the source sets
`any_unprocessed = True` for every `DataBlock`-class slot regardless of
whether a block was bound. -/
theorem claim_C1_counterexample :
    NodeInterfaceManager.get_input_data_blocks c1ctx "node1" "node1"
        [c1optSlot, c1dsSlot] = .ok [("ds", c1block)]
      ∧ boundOf c1ctx "node1" [c1optSlot, c1dsSlot] = [("ds", c1block)]
      ∧ claimedAnyUnprocessed c1ctx "node1" [c1optSlot, c1dsSlot] = false := by
  refine ⟨rfl, by decide, by decide⟩

/-- C1, amended: for a node whose connected slots all have format class
`DataBlock` or `DataSet` and whose required slots all find a block,
`InputExhausted("All inputs exhausted")` is raised iff at least one block was
bound and no slot contributed "unprocessed" work, where a `DataBlock` slot
contributes unconditionally (whether or not a block was bound to it) and a
`DataSet` slot contributes iff its bound block is unprocessed for the node. -/
theorem claim_C1_amended (ctx : ExecutionContext) (nk nn : String)
    (inputs : List ConnectedInput)
    (hgood : ∀ i ∈ inputs, goodFmt i = true)
    (hreq : ∀ i ∈ inputs, i.ann.is_optional = false →
      (pickBlock ctx nk i).isSome = true) :
    NodeInterfaceManager.get_input_data_blocks ctx nk nn inputs
        = .error (.inputExhaustedException allExhaustedMsg)
      ↔ ((boundOf ctx nk inputs).isEmpty = false
          ∧ anyUnprocessed ctx nk inputs = false) := by
  rw [gidb_characterization ctx nk nn inputs hgood hreq]
  by_cases h1 : (boundOf ctx nk inputs).isEmpty
    <;> by_cases h2 : anyUnprocessed ctx nk inputs
    <;> simp [h1, h2]

/-- C1, witness for the amended theorem: a single `DataSet` slot whose most
recent block is already processed binds one block with no unprocessed work,
so discovery raises `InputExhausted("All inputs exhausted")`. -/
theorem claim_C1_amended_witness :
    NodeInterfaceManager.get_input_data_blocks c1ctx "node1" "node1" [c1dsSlot]
      = .error (.inputExhaustedException allExhaustedMsg) :=
  (claim_C1_amended c1ctx "node1" "node1" [c1dsSlot] (by decide)
    (by decide)).mpr (by decide)

/-- C6: during input discovery over slots of bindable format class, (1) when a
non-optional slot's filtered stream yields no block — the slots before it
having processed normally — discovery fails with
`InputExhausted("Required input … is empty")` naming that slot; (2) when every
non-optional slot yields a block, no such required-empty failure occurs, no
matter how many optional slots yielded nothing. -/
theorem claim_C6 (ctx : ExecutionContext) (nk nn : String) :
    (∀ (pre : List ConnectedInput) (i : ConnectedInput)
        (rest : List ConnectedInput),
      (∀ j ∈ pre, goodFmt j = true) →
      (∀ j ∈ pre, j.ann.is_optional = false →
        (pickBlock ctx nk j).isSome = true) →
      goodFmt i = true → pickBlock ctx nk i = none →
      i.ann.is_optional = false →
      NodeInterfaceManager.get_input_data_blocks ctx nk nn (pre ++ i :: rest)
        = .error (.inputExhaustedException (requiredEmptyMsg i.name nn)))
    ∧ (∀ (inputs : List ConnectedInput),
      (∀ j ∈ inputs, goodFmt j = true) →
      (∀ j ∈ inputs, j.ann.is_optional = false →
        (pickBlock ctx nk j).isSome = true) →
      ∀ nm, NodeInterfaceManager.get_input_data_blocks ctx nk nn inputs
        ≠ .error (.inputExhaustedException (requiredEmptyMsg nm nn))) := by
  constructor
  · intro pre i rest hg hr hgi hpick hopt
    rw [NodeInterfaceManager.get_input_data_blocks,
      gidbGo_append ctx nk nn pre (i :: rest) [] false hg hr]
    simp [getInputDataBlocksGo, gidb_block_eq_pick ctx nk i hgi, hpick, hopt]
  · intro inputs hg hr nm
    rw [gidb_characterization ctx nk nn inputs hg hr]
    by_cases h : (!(boundOf ctx nk inputs).isEmpty
        && !anyUnprocessed ctx nk inputs) = true
    · rw [if_pos h]
      intro hc
      exact requiredEmptyMsg_ne_allExhaustedMsg nm nn (by
        injection hc with h1
        injection h1 with h2
        exact h2.symm)
    · rw [if_neg h]
      intro hc
      exact Except.noConfusion hc

/-- A required `DataBlock` slot with an empty upstream stream. -/
def c6req : ConnectedInput :=
  { name := "input", ann := { data_format_class := "DataBlock" },
    stream := ⟨[]⟩ }

/-- An optional `DataBlock` slot with an empty upstream stream. -/
def c6opt : ConnectedInput :=
  { name := "maybe",
    ann := { data_format_class := "DataBlock", is_optional := true },
    stream := ⟨[]⟩ }

/-- A context with no prior logs. -/
def simpleCtx : ExecutionContext :=
  { storages := [], local_memory_storage := "memory://local",
    target_storage := none }

/-- C6, witness: a required empty `DataBlock` slot fails with the
required-input-is-empty message; an optional empty slot alone does not. -/
theorem claim_C6_witness :
    NodeInterfaceManager.get_input_data_blocks simpleCtx "n1" "n1" [c6req]
        = .error (.inputExhaustedException (requiredEmptyMsg c6req.name "n1"))
      ∧ NodeInterfaceManager.get_input_data_blocks simpleCtx "n1" "n1" [c6opt]
        ≠ .error (.inputExhaustedException (requiredEmptyMsg "maybe" "n1")) := by
  have h := claim_C6 simpleCtx "n1" "n1"
  refine ⟨?_, h.2 [c6opt] (by decide) (by decide) "maybe"⟩
  have h1 := h.1 [] c6req [] (by decide) (by decide) (by decide) (by decide)
    (by decide)
  simpa using h1

/-- C10: for a connected slot whose (parser-valid) format class is neither
`DataBlock` nor `DataSet`, `get_input_data_block` raises
`NotImplementedError`, and a discovery pass over a slot list containing such
a slot (the slots before it processing normally) raises `NotImplementedError`
and produces no binding. -/
theorem claim_C10 (ctx : ExecutionContext) (nk nn : String)
    (pre : List ConnectedInput) (bad : ConnectedInput)
    (rest : List ConnectedInput)
    (_hvalid : bad.ann.data_format_class ∈ VALID_DATA_INTERFACE_TYPES)
    (hbad : goodFmt bad = false)
    (hgood : ∀ j ∈ pre, goodFmt j = true)
    (hreq : ∀ j ∈ pre, j.ann.is_optional = false →
      (pickBlock ctx nk j).isSome = true) :
    (∀ storages, NodeInterfaceManager.get_input_data_block ctx nk bad.stream
        bad storages = .error .notImplementedError)
      ∧ NodeInterfaceManager.get_input_data_blocks ctx nk nn
          (pre ++ bad :: rest) = .error .notImplementedError := by
  constructor
  · intro storages
    exact gidb_block_bad ctx nk bad storages hbad
  · rw [NodeInterfaceManager.get_input_data_blocks,
      gidbGo_append ctx nk nn pre (bad :: rest) [] false hgood hreq]
    simp [getInputDataBlocksGo,
      gidb_block_bad ctx nk bad ctx.all_storages hbad]

/-- A connected slot declared `DataFrame`, a parser-valid format class the
interface manager cannot bind. -/
def c10bad : ConnectedInput :=
  { name := "frame", ann := { data_format_class := "DataFrame" },
    stream := ⟨[]⟩ }

/-- C10, witness: binding a `DataFrame` slot raises `NotImplementedError` at
both entry points. -/
theorem claim_C10_witness :
    NodeInterfaceManager.get_input_data_block simpleCtx "n1" c10bad.stream
        c10bad simpleCtx.all_storages = .error .notImplementedError
      ∧ NodeInterfaceManager.get_input_data_blocks simpleCtx "n1" "n1" [c10bad]
        = .error .notImplementedError := by
  have h := claim_C10 simpleCtx "n1" "n1" [] c10bad [] (by decide) (by decide)
    (by decide) (by decide)
  exact ⟨h.1 simpleCtx.all_storages, by simpa using h.2⟩

lemma validateInputsGo_ok_iff (l : List DataFunctionAnnotation) :
    ∀ seen, validateInputsGo seen l = .ok ()
      ↔ l.countP (fun a => a.data_format_class == "DataBlock" && !a.is_optional)
          ≤ (if seen then 0 else 1) := by
  induction l with
  | nil =>
    intro seen
    simp [validateInputsGo]
  | cons a l ih =>
    intro seen
    by_cases h : (a.data_format_class == "DataBlock" && !a.is_optional) = true
    · cases seen
      · rw [show validateInputsGo false (a :: l) = validateInputsGo true l by
          simp [validateInputsGo, h]]
        rw [ih true]
        simp [List.countP_cons, h]
      · rw [show validateInputsGo true (a :: l)
            = .error (.otherError
              "Only one uncorrelated DataBlock input allowed to a DataFunction.Correlate the inputs or use a DataSet")
            by simp [validateInputsGo, h]]
        simp [List.countP_cons, h]
    · rw [show validateInputsGo seen (a :: l) = validateInputsGo seen l by
        simp [validateInputsGo, h]]
      rw [ih seen]
      simp [List.countP_cons, h]

/-- C5: `validate_inputs` succeeds exactly when the interface has at most one
non-optional `DataBlock` input slot — so it fails for every pipe with two or
more such slots and passes every pipe with at most one. -/
theorem claim_C5 (dfi : DataFunctionInterface) :
    dfi.validate_inputs = .ok ()
      ↔ dfi.inputs.countP
          (fun a => a.data_format_class == "DataBlock" && !a.is_optional) ≤ 1 := by
  have h := validateInputsGo_ok_iff dfi.inputs false
  simpa [DataFunctionInterface.validate_inputs] using h

lemma listSetEq_iff [DecidableEq α] (xs ys : List α) :
    listSetEq xs ys = true ↔ ((∀ x ∈ xs, x ∈ ys) ∧ (∀ y ∈ ys, y ∈ xs)) := by
  simp [listSetEq, List.all_eq_true]

/-- C9: `assign_inputs` accepts a single non-map value exactly when the
interface has exactly one non-self-ref slot, assigning the value to that
slot's name; it accepts a name-keyed map exactly when the map's key set minus
`"this"` equals the set of non-self-ref slot names; every other raw input
assignment raises. -/
theorem claim_C9 (dfi : DataFunctionInterface) (v : String)
    (m : List (String × String)) :
    ((∃ r, dfi.assign_inputs (.single v) = .ok r)
        ↔ dfi.get_non_recursive_inputs.length = 1)
      ∧ (∀ a, dfi.get_non_recursive_inputs = [a] →
          dfi.assign_inputs (.single v) = .ok [(a.name, v)])
      ∧ ((∃ r, dfi.assign_inputs (.inputMap m) = .ok r)
          ↔ ((∀ k ∈ keysMinusThis m,
                some k ∈ dfi.get_non_recursive_inputs.map (·.name))
              ∧ (∀ n ∈ dfi.get_non_recursive_inputs.map (·.name),
                n ∈ (keysMinusThis m).map some))) := by
  refine ⟨?_, ?_, ?_⟩
  · match hl : dfi.get_non_recursive_inputs with
    | [] => simp [DataFunctionInterface.assign_inputs, hl]
    | [a] => simp [DataFunctionInterface.assign_inputs, hl]
    | a :: b :: t => simp [DataFunctionInterface.assign_inputs, hl]
  · intro a ha
    simp [DataFunctionInterface.assign_inputs, ha]
  · by_cases h : listSetEq ((keysMinusThis m).map some)
        (dfi.get_non_recursive_inputs.map (·.name)) = true
    · have hp := (listSetEq_iff _ _).mp h
      simp only [DataFunctionInterface.assign_inputs, h, if_true]
      constructor
      · intro _
        refine ⟨fun k hk => hp.1 (some k) (List.mem_map_of_mem some hk), hp.2⟩
      · intro _
        exact ⟨_, rfl⟩
    · simp only [DataFunctionInterface.assign_inputs, h, if_false]
      constructor
      · rintro ⟨r, hr⟩
        exact absurd hr (by simp)
      · rintro ⟨h1, h2⟩
        exact absurd ((listSetEq_iff _ _).mpr ⟨fun x hx => by
          obtain ⟨k, hk, rfl⟩ := List.mem_map.mp hx
          exact h1 k hk, h2⟩) h

/-- An interface with exactly one non-self-ref slot named `in1`. -/
def c9dfi : DataFunctionInterface :=
  { inputs := [{ data_format_class := "DataBlock", name := some "in1" }],
    output := none }

/-- C9, witness: the single-slot interface accepts a bare value (assigned to
`in1`) and accepts the map keyed exactly by `in1`. -/
theorem claim_C9_witness :
    c9dfi.assign_inputs (.single "upstream") = .ok [(some "in1", "upstream")]
      ∧ (∃ r, c9dfi.assign_inputs (.inputMap [("in1", "upstream")]) = .ok r) := by
  have h := claim_C9 c9dfi "upstream" [("in1", "upstream")]
  refine ⟨?_, h.2.2.mpr (by decide)⟩
  have h1 := h.2.1 { data_format_class := "DataBlock", name := some "in1" }
    (by decide)
  simpa using h1

/-- The single iteration observed by the C2 scenario: building the bound
interface raises `InputExhaustedException` for a required empty input before
any Worker run. -/
def c2script : List IterOutcome :=
  [{ bind := .error (.inputExhaustedException (requiredEmptyMsg "input" "node")),
     worker := .ok none }]

/-- C2, counterexample.  An `InputExhaustedException` from a required input
on the very first iteration — zero prior Worker runs — is NOT re-raised: the
run returns normally (`finished` with `last_output = None` and `n_runs = 0`)
because `ExecutionManager.run` catches the exception unconditionally. -/
theorem claim_C2_counterexample :
    ExecutionManager.run true c2script = .finished none 0 := rfl

/-- C2, amended: an `InputExhaustedException` raised in the loop body
(while building the bound interface or inside the Worker) is always caught,
whatever the number of prior successful iterations; the run returns the
most recent Worker output. -/
theorem claim_C2_amended (te : Bool) (o : IterOutcome)
    (rest : List IterOutcome) (last : Option DataBlockMetadata) (n : Nat)
    (msg : String)
    (h : o.bind = .error (.inputExhaustedException msg)
      ∨ ∃ dfi, o.bind = .ok dfi
          ∧ o.worker = .error (.inputExhaustedException msg)) :
    ExecutionManager.runLoop te (o :: rest) last n = .finished last n := by
  rcases h with h | ⟨dfi, hb, hw⟩
  · simp [ExecutionManager.runLoop, h]
  · simp [ExecutionManager.runLoop, hb, hw]

/-- A block produced by an earlier successful iteration. -/
def c2block : DataBlockMetadata := { id := 7, created_at := 3 }

/-- C2, witness for the amended theorem: after three successful runs whose
last output is `c2block`, the exhaustion is recovered and that output is
returned. -/
theorem claim_C2_amended_witness :
    ExecutionManager.runLoop true c2script (some c2block) 3
      = .finished (some c2block) 3 :=
  claim_C2_amended true _ _ (some c2block) 3
    (requiredEmptyMsg "input" "node") (Or.inl rfl)

/-- C4: when an iteration binds successfully and the Worker returns, the loop
breaks after that iteration whenever `to_exhaustion` is false or the bound
interface's input list is empty; in particular a no-input pipe run with
`to_exhaustion = true` executes the Worker exactly once (`n_runs = 1`). -/
theorem claim_C4 (te : Bool) (o : IterOutcome) (rest : List IterOutcome)
    (dfi : BoundFunctionInterface) (out : Option DataBlockMetadata)
    (hb : o.bind = .ok dfi) (hw : o.worker = .ok out)
    (h : te = false ∨ dfi.inputs = []) :
    (∀ last n, ExecutionManager.runLoop te (o :: rest) last n
        = .finished out (n + 1))
      ∧ ExecutionManager.run te (o :: rest) = .finished out 1 := by
  have hmain : ∀ last n, ExecutionManager.runLoop te (o :: rest) last n
      = .finished out (n + 1) := by
    intro last n
    have hcond : (!te || dfi.inputs.isEmpty) = true := by
      rcases h with h | h <;> simp [h]
    simp [ExecutionManager.runLoop, hb, hw, hcond]
  exact ⟨hmain, hmain none 0⟩

/-- The bound interface of a source pipe: no inputs. -/
def c4iface : BoundFunctionInterface :=
  { inputs := [], output := some { data_format_class := "RecordsList" } }

/-- The block the source pipe outputs. -/
def c4block : DataBlockMetadata := { id := 11, created_at := 0 }

/-- The iteration script of the C4 scenario: the source pipe binds an empty
interface and the Worker produces one block. -/
def c4script : List IterOutcome :=
  [{ bind := .ok c4iface, worker := .ok (some c4block) }]

/-- C4, witness: the no-input pipe run to exhaustion executes exactly once
and returns its single output. -/
theorem claim_C4_witness :
    ExecutionManager.run true c4script = .finished (some c4block) 1 :=
  (claim_C4 true { bind := .ok c4iface, worker := .ok (some c4block) } []
    c4iface (some c4block) rfl rfl (Or.inr rfl)).2

/-- The declared output annotation of the C3 scenario: `DataBlock`, not a
generator class. -/
def c3ann : DataFunctionAnnotation := { data_format_class := "DataBlock" }

/-- The block `create_data_block_from_records` would create (never reached in
the C3 scenario). -/
def c3fresh : DataBlockMetadata := { id := 99, created_at := 9 }

/-- C3, the failing input evaluated.  With declared output class `DataBlock`
and a pipe that returned a generator, `conform_output` does not raise any
unsupported-output-type error: the source builds `TypeError(output)` without
raising it and then crashes with `AttributeError` on `output.get_one()`. -/
theorem claim_C3_bug :
    Worker.conform_output (some c3ann) (some "postgres://db") c3fresh
        (.generator (some 0))
      = .error (.attributeError "generator object has no attribute get_one") :=
  rfl

/-- C7: when the declared output class is one of the generator classes and
the pipe returns a generator with no first element, the Worker treats the
output as empty — `conform_output` returns `None`, no block is created, no
OUTPUT `DataBlockLog` is written, and an INPUT `DataBlockLog` is still
written for every slot with a bound block. -/
theorem claim_C7 (iface : BoundFunctionInterface)
    (ann : DataFunctionAnnotation) (ts : String) (fresh : DataBlockMetadata)
    (hout : iface.output = some ann)
    (hfmt : ann.data_format_class = "RecordsListGenerator"
      ∨ ann.data_format_class = "DataFrameGenerator") :
    Worker.run iface (.ok (some (.generator none))) (some ts) fresh
        = .ok { output_block := none, output_logs := [],
                input_logs := iface.inputs.filterMap (·.bound_data_block),
                created := [] }
      ∧ Worker.conform_output iface.output (some ts) fresh (.generator none)
        = .ok (none, []) := by
  have hconform : Worker.conform_output iface.output (some ts) fresh
      (.generator none) = .ok (none, []) := by
    rcases hfmt with h | h <;> simp [Worker.conform_output, hout, h]
  exact ⟨by simp [Worker.run, hconform], hconform⟩

/-- A slot with a bound block. -/
def c7in1 : NodeInput :=
  { name := "a", original_annotation := { data_format_class := "DataBlock" },
    bound_data_block := some { id := 1, created_at := 0 } }

/-- An optional slot that bound nothing. -/
def c7in2 : NodeInput :=
  { name := "b",
    original_annotation := { data_format_class := "DataSet", is_optional := true },
    bound_data_block := none }

/-- A bound interface declaring a `RecordsListGenerator` output. -/
def c7iface : BoundFunctionInterface :=
  { inputs := [c7in1, c7in2],
    output := some { data_format_class := "RecordsListGenerator" } }

/-- The block that would be created had the generator been non-empty. -/
def c7fresh : DataBlockMetadata := { id := 50, created_at := 5 }

/-- C7, witness: the empty-generator invocation returns no block, creates
nothing, writes no OUTPUT log, and still logs the one bound input. -/
theorem claim_C7_witness :
    Worker.run c7iface (.ok (some (.generator none))) (some "postgres://db")
        c7fresh
      = .ok { output_block := none, output_logs := [],
              input_logs := [{ id := 1, created_at := 0 }], created := [] } := by
  have h := (claim_C7 c7iface { data_format_class := "RecordsListGenerator" }
    "postgres://db" c7fresh rfl (Or.inl rfl)).1
  simpa using h

lemma pyStringSlice_length_le (s : String) (n : Nat) :
    (pyStringSlice s n).length ≤ n := by
  show (s.data.take n).length ≤ n
  exact List.length_take_le n s.data

/-- C8: a run session opened with a runtime set always ends with
`completed_at` populated by the later clock reading (hence
`completed_at >= started_at` under clock monotonicity); the body's result is
re-raised as-is; and when the body raised, the log's `error` holds the
message together with the traceback truncated to at most 5000 characters. -/
theorem claim_C8 {α : Type} (rt : String) (t0 t1 : Nat) (tback : String)
    (body : Except PyError α) (log : PipeLog) (res : Except PyError α)
    (hmono : t0 ≤ t1)
    (hrun : ExecutionContext.start_data_function_run (some rt) t0 t1 tback body
      = .ok (log, res)) :
    log.completed_at = some t1 ∧ log.started_at ≤ t1 ∧ res = body
      ∧ (∀ e, body = .error e →
          log.error = some { error := e.message,
                             traceback := pyStringSlice tback 5000 }
            ∧ (pyStringSlice tback 5000).length ≤ 5000) := by
  cases body with
  | ok a =>
    simp only [ExecutionContext.start_data_function_run, Except.ok.injEq,
      Prod.mk.injEq] at hrun
    obtain ⟨hlog, hres⟩ := hrun
    subst hlog
    subst hres
    exact ⟨rfl, hmono, rfl, fun e he => by cases he⟩
  | error e0 =>
    simp only [ExecutionContext.start_data_function_run, Except.ok.injEq,
      Prod.mk.injEq] at hrun
    obtain ⟨hlog, hres⟩ := hrun
    subst hlog
    subst hres
    refine ⟨rfl, hmono, rfl, fun e he => ?_⟩
    have he2 : e = e0 := by
      cases he
      rfl
    subst he2
    exact ⟨rfl, pyStringSlice_length_le tback 5000⟩

/-- The body of the C8 scenario: the pipe raised `Exception("pipe FAIL")`. -/
def c8body : Except PyError Unit := .error (.pipeFailure "pipe FAIL")

/-- The `PipeLog` the C8 run session leaves behind. -/
def c8log : PipeLog :=
  { started_at := 1, completed_at := some 2,
    error := some { error := "pipe FAIL", traceback := "" } }

/-- C8, witness: the failed invocation's log has `completed_at` set, not
earlier than `started_at`, and a non-null error with the truncated
traceback. -/
theorem claim_C8_witness :
    c8log.completed_at = some 2 ∧ c8log.started_at ≤ 2
      ∧ c8log.error = some { error := (PyError.pipeFailure "pipe FAIL").message,
                             traceback := pyStringSlice "" 5000 }
      ∧ (pyStringSlice "" 5000).length ≤ 5000 := by
  have h := claim_C8 "python://local" 1 2 "" c8body c8log c8body (by decide) rfl
  exact ⟨h.1, h.2.1, (h.2.2.2 _ rfl).1, (h.2.2.2 _ rfl).2⟩

/-- C7, counterexample to the claim as universally stated: when the declared
output class is NOT a generator class (here `DataBlock`) and the pipe returns
a generator with no first element, the Worker does not treat the output as
empty — `conform_output` crashes with `AttributeError` (the unraised
`TypeError(output)` slip) instead of returning `None`. -/
theorem claim_C7_counterexample :
    Worker.conform_output (some { data_format_class := "DataBlock" })
        (some "postgres://db") c7fresh (.generator none)
      = .error (.attributeError "generator object has no attribute get_one") :=
  rfl
